import Mathlib

/-!
Shallow embedding of `src/RatingBar.js` (the rating state synchronization
core of the dislike-everywhere widget).

Modelling conventions, chosen to mirror the JavaScript source line by line:

* JS numbers held in the session (`this.likes`, `this.dislikes`) are modelled
  as `Option Int`: `some n` is an ordinary number, `none` collapses the JS
  values `undefined`/`NaN` that arise when a field was absent.  Arithmetic on
  `none` yields `none` (NaN-propagation) and comparisons against `none` are
  `false` (NaN comparisons are false in JS).
* JS objects handled by this code (remote responses and cache entries) are
  modelled by the record `JsObj`, whose fields are exactly the properties the
  source ever reads or writes (`likes`, `dislikes`, `error`, `status`,
  `cached`, `url`, `expires`); an absent property is `none`/`false`.  The JS
  spread `\x7b...obj, extra\x7d` is the Lean record update.
* `localStorage` under the fixed key is `Storage := Option StoredValue`.
  `StoredValue` partitions the possible stored strings by how
  `JSON.parse` behaves on them: a serialized table, the empty string
  (falsy before parsing), a well-formed JSON text whose value is falsy
  (for example the text consisting of the four letters of null), and an
  unparsable string on which `JSON.parse` throws.
* Thrown JS exceptions (a failed `fetch`/`response.json()`, or an uncaught
  `JSON.parse` throw) are `Except.error ()`; `await` propagation is the
  explicit `match` on `Except`.
* `Date.now()` is an explicit `now : Int` parameter; `window.location.href`
  is an explicit `URLParts` parameter (the decomposition `new URL(...)`
  produces); the remote round trip of `request` is an explicit
  `remote : Except Unit JsObj` parameter giving that call's outcome.
* `update()` does two things: it recomputes the progress-bar numbers
  (embedded as `progressValues`) and, when its `updateCache` argument is
  truthy, calls `setCache(\x7blikes, dislikes\x7d)`; the callers `like`,
  `dislike` and `load` all pass a truthy flag, so the cache write is inlined
  at each call site.
-/

/-- Decidable equality for outcomes, so that concrete runs can be compared
by `decide`. -/
instance {ε α : Type} [DecidableEq ε] [DecidableEq α] :
    DecidableEq (Except ε α) := fun a b =>
  match a, b with
  | Except.ok x, Except.ok y =>
    if h : x = y then Decidable.isTrue (by rw [h])
    else Decidable.isFalse (by intro hc; cases hc; exact h rfl)
  | Except.error x, Except.error y =>
    if h : x = y then Decidable.isTrue (by rw [h])
    else Decidable.isFalse (by intro hc; cases hc; exact h rfl)
  | Except.ok _, Except.error _ => Decidable.isFalse (by intro hc; cases hc)
  | Except.error _, Except.ok _ => Decidable.isFalse (by intro hc; cases hc)

namespace RatingBar

/-- A JS object as manipulated by RatingBar: remote responses and cache
entries.  Fields are the properties the source reads or writes; `none` /
`false` model an absent property. -/
structure JsObj where
  likes : Option Int := none
  dislikes : Option Int := none
  error : Bool := false
  status : Option String := none
  cached : Bool := false
  url : Option String := none
  expires : Option Int := none
deriving DecidableEq, Repr

/-- The cache table stored under the `ratings` key: a JS object mapping
normalized URLs to entries, as an association list (first binding wins on
lookup, in-place overwrite keeps position, new keys are appended — JS
property order). -/
def CacheTable : Type := List (String × JsObj)

instance : DecidableEq CacheTable := by
  unfold CacheTable
  infer_instance

/-- Classification of the string `localStorage` holds under the `ratings`
key, partitioned by how `getAllCache`'s truthiness test and `JSON.parse`
treat it: a serialized table, the empty string (falsy), valid JSON whose
parsed value is falsy, or an unparsable string on which `JSON.parse`
throws. -/
inductive StoredValue where
  | table (t : CacheTable)
  | emptyStr
  | falsyJson
  | malformed
deriving DecidableEq

/-- The `ratings` slot of `localStorage`: `none` when `getItem` returns
`null`. -/
def Storage : Type := Option StoredValue

instance : DecidableEq Storage := by
  unfold Storage
  infer_instance

/-- The decomposition of a page URL that `new URL(href)` yields; `getURL`
only reads `host` and `path` (the source's `hostname`/`pathname`). -/
structure URLParts where
  scheme : String
  host : String
  path : String
  query : String
  fragment : String
deriving DecidableEq, Repr

/-- In-memory session state: `this.likes` and `this.dislikes`.  `none`
models `undefined`/`NaN`. -/
structure Session where
  likes : Option Int := none
  dislikes : Option Int := none
deriving DecidableEq, Repr

/-- JS `+=` on a possibly-NaN number: NaN propagates. -/
def jsAdd : Option Int → Int → Option Int
  | some a, b => some (a + b)
  | none, _ => none

/-- JS `<` against a possibly-undefined left operand: comparisons involving
NaN are `false`. -/
def jsLt : Option Int → Int → Bool
  | some a, b => a < b
  | none, _ => false

/-- JS `str.replace(/\/$/, "")`: drop a single trailing slash. -/
def dropTrailingSlash (l : List Char) : List Char :=
  match l.reverse with
  | [] => l
  | c :: rest => if c = '/' then rest.reverse else l

/-- Whether the string ends in a slash (the condition under which the
trailing-slash replace fires). -/
def endsSlash (l : List Char) : Bool :=
  match l.reverse with
  | [] => false
  | c :: _ => c = '/'

/-- JS `str.replace(pat, "")` with a string pattern: remove the first
occurrence of `pat`, anywhere in the string; unchanged when there is
none. -/
def removeFirst (pat : List Char) : List Char → List Char
  | [] => []
  | c :: rest =>
    if pat.isPrefixOf (c :: rest) then (c :: rest).drop pat.length
    else c :: removeFirst pat rest

/-- Whether `pat` occurs as a contiguous substring (the condition under
which the `www.` replace fires). -/
def hasOccurrence (pat : List Char) : List Char → Bool
  | [] => false
  | c :: rest => pat.isPrefixOf (c :: rest) || hasOccurrence pat rest

/-- The four characters of the pattern the source removes from the
concatenated host and path. -/
def wwwPat : List Char := [ 'w', 'w', 'w', '.' ]

/-- The string transform inside `getURL`: drop one trailing slash, then
remove the first occurrence of the `www.` pattern. -/
def normalizeString (s : String) : String :=
  String.mk (removeFirst wwwPat (dropTrailingSlash s.data))

/-- Embeds `getURL()`: keep `hostname + pathname` of the page URL, drop a
trailing slash, remove the first `www.`. -/
def getURL (u : URLParts) : String :=
  normalizeString (u.host ++ u.path)

/-- Association-list lookup, JS `ratings[url]` (with `undefined` as
`none`). -/
def lookupEntry : CacheTable → String → Option JsObj
  | [], _ => none
  | (k0, v0) :: rest, k => if k0 = k then some v0 else lookupEntry rest k

/-- Association-list store, JS `ratings[url] = entry`: overwrite in place or
append. -/
def setEntry : CacheTable → String → JsObj → CacheTable
  | [], k, v => [ (k, v) ]
  | (k0, v0) :: rest, k, v =>
    if k0 = k then (k0, v) :: rest else (k0, v0) :: setEntry rest k v

/-- Embeds `getAllCache()`: read the `ratings` string; a `null` or falsy
read short-circuits to the empty table; otherwise `JSON.parse` either
throws (propagated — there is no try/catch in the source) or produces a
value that, if falsy, is replaced by the empty table. -/
def getAllCache : Storage → Except Unit CacheTable
  | none => Except.ok []
  | some StoredValue.emptyStr => Except.ok []
  | some StoredValue.falsyJson => Except.ok []
  | some StoredValue.malformed => Except.error ()
  | some (StoredValue.table t) => Except.ok t

/-- Embeds `getCached()`: look the normalized URL up in the full table
(`getAllCache` faults propagate); a missing entry is absent (`none`); an
entry with `expires < Date.now()` is absent; otherwise the entry is
returned spread with `cached: true` and the normalized `url`.  The
function only reads storage — the source never calls `setItem` here. -/
def getCached (sto : Storage) (u : URLParts) (now : Int) :
    Except Unit (Option JsObj) :=
  match getAllCache sto with
  | Except.error e => Except.error e
  | Except.ok ratings =>
    match lookupEntry ratings (getURL u) with
    | none => Except.ok none
    | some entry =>
      if jsLt entry.expires now then Except.ok none
      else Except.ok (some { entry with cached := true, url := some (getURL u) })

/-- Embeds `setCache(rating)`: re-read the full table (faults propagate),
store the rating spread with `expires = Date.now() + 1000*60*60` under the
normalized URL, and persist the whole table. -/
def setCache (sto : Storage) (u : URLParts) (now : Int) (rating : JsObj) :
    Except Unit Storage :=
  match getAllCache sto with
  | Except.error e => Except.error e
  | Except.ok ratings =>
    Except.ok (some (StoredValue.table
      (setEntry ratings (getURL u)
        { rating with expires := some (now + 1000 * 60 * 60) })))

/-- Embeds the progress computation of `update()` for numeric counts:
`value = Math.floor(likes / total)` and `max = total` when
`total = likes + dislikes > 0`, else the defaults `value = 1`, `max = 2`.
`Math.floor` of the JS float quotient is integer floor division. -/
def progressValues (likes dislikes : Int) : Int × Int :=
  let total := likes + dislikes
  if total > 0 then (Int.fdiv likes total, total) else (1, 2)

/-- Embeds `getRating()`: serve the unexpired cache entry when there is one
(no remote call); otherwise perform the remote read (`request`, whose
outcome is the `remote` argument — a throw propagates), write the response
to the cache, and return it.  The `Nat` in the result counts remote
requests performed. -/
def getRating (sto : Storage) (u : URLParts) (now : Int)
    (remote : Except Unit JsObj) : Except Unit (JsObj × Nat × Storage) :=
  match getCached sto u now with
  | Except.error e => Except.error e
  | Except.ok (some cached) => Except.ok (cached, 0, sto)
  | Except.ok none =>
    match remote with
    | Except.error e => Except.error e
    | Except.ok response =>
      match setCache sto u now response with
      | Except.error e => Except.error e
      | Except.ok sto2 => Except.ok (response, 1, sto2)

/-- Embeds `like()`: await the vote round trip (a throw propagates), bail
when `response.error` is truthy, apply the `success` / `updated` deltas,
then `update(true)` writes the current counts to the cache. -/
def like (s : Session) (sto : Storage) (u : URLParts) (now : Int)
    (remote : Except Unit JsObj) : Except Unit (Session × Storage) :=
  match remote with
  | Except.error e => Except.error e
  | Except.ok response =>
    if response.error then Except.ok (s, sto)
    else
      let s1 := if response.status = some ("success")
        then { s with likes := jsAdd s.likes 1 } else s
      let s2 := if response.status = some ("updated")
        then { s1 with likes := jsAdd s1.likes 1, dislikes := jsAdd s1.dislikes (-1) }
        else s1
      match setCache sto u now { likes := s2.likes, dislikes := s2.dislikes } with
      | Except.error e => Except.error e
      | Except.ok sto2 => Except.ok (s2, sto2)

/-- Embeds `dislike()`: await the vote round trip (a throw propagates),
apply the `success` / `updated` deltas, then `update(true)` writes the
current counts to the cache.  Unlike `like()`, the source has no
`response.error` bail here. -/
def dislike (s : Session) (sto : Storage) (u : URLParts) (now : Int)
    (remote : Except Unit JsObj) : Except Unit (Session × Storage) :=
  match remote with
  | Except.error e => Except.error e
  | Except.ok response =>
    let s1 := if response.status = some ("success")
      then { s with dislikes := jsAdd s.dislikes 1 } else s
    let s2 := if response.status = some ("updated")
      then { s1 with dislikes := jsAdd s1.dislikes 1, likes := jsAdd s1.likes (-1) }
      else s1
    match setCache sto u now { likes := s2.likes, dislikes := s2.dislikes } with
    | Except.error e => Except.error e
    | Except.ok sto2 => Except.ok (s2, sto2)

/-- Embeds `load()`: `getRating` (faults propagate), adopt the rating's
`likes`/`dislikes` fields, then `update(rating)` — the rating object is
truthy, so the cache write runs unconditionally. -/
def load (sto : Storage) (u : URLParts) (now : Int)
    (remote : Except Unit JsObj) : Except Unit (Session × Storage) :=
  match getRating sto u now remote with
  | Except.error e => Except.error e
  | Except.ok (rating, _, sto1) =>
    let s : Session := { likes := rating.likes, dislikes := rating.dislikes }
    match setCache sto1 u now { likes := s.likes, dislikes := s.dislikes } with
    | Except.error e => Except.error e
    | Except.ok sto2 => Except.ok (s, sto2)

/-- A concrete page URL used by concrete evaluations. -/
def exampleURL : URLParts :=
  { scheme := "https", host := "example.com", path := "/page",
    query := "", fragment := "" }

/-- Storing under a key and looking the same key up yields the stored
entry. -/
theorem lookup_setEntry (t : CacheTable) (k : String) (v : JsObj) :
    lookupEntry (setEntry t k v) k = some v := by
  induction t with
  | nil => simp [setEntry, lookupEntry]
  | cons hd rest ih =>
    obtain ⟨k0, v0⟩ := hd
    by_cases hk : k0 = k
    · simp [setEntry, lookupEntry, hk]
    · simp [setEntry, lookupEntry, hk, ih]

/-- When the pattern does not occur, the first-occurrence removal is the
identity. -/
theorem removeFirst_of_no_occurrence (pat l : List Char)
    (h : hasOccurrence pat l = false) : removeFirst pat l = l := by
  induction l with
  | nil => simp [removeFirst]
  | cons c rest ih =>
    simp only [hasOccurrence, Bool.or_eq_false_iff] at h
    simp [removeFirst, h.1, ih h.2]

/-- When the string does not end in a slash, the trailing-slash removal is
the identity. -/
theorem dropTrailingSlash_of_not_endsSlash (l : List Char)
    (h : endsSlash l = false) : dropTrailingSlash l = l := by
  unfold dropTrailingSlash
  unfold endsSlash at h
  match hrev : l.reverse with
  | [] => simp
  | c :: rest =>
    rw [hrev] at h
    simp only [decide_eq_false_iff_not] at h
    simp [h]

/-- How `getCached` evaluates once the table has been read successfully. -/
theorem getCached_of_ok (sto : Storage) (u : URLParts) (now : Int)
    (ratings : CacheTable) (hall : getAllCache sto = Except.ok ratings) :
    getCached sto u now =
      match lookupEntry ratings (getURL u) with
      | none => Except.ok none
      | some entry =>
        if jsLt entry.expires now then Except.ok none
        else Except.ok (some { entry with cached := true, url := some (getURL u) }) := by
  unfold getCached
  rw [hall]

/-- A fault while reading the table propagates out of `getCached`. -/
theorem getCached_of_error (sto : Storage) (u : URLParts) (now : Int)
    (hall : getAllCache sto = Except.error ()) :
    getCached sto u now = Except.error () := by
  unfold getCached
  rw [hall]

/-- How `setCache` evaluates once the table has been read successfully. -/
theorem setCache_of_ok (sto : Storage) (u : URLParts) (now : Int)
    (rating : JsObj) (ratings : CacheTable)
    (hall : getAllCache sto = Except.ok ratings) :
    setCache sto u now rating =
      Except.ok (some (StoredValue.table
        (setEntry ratings (getURL u)
          { rating with expires := some (now + 1000 * 60 * 60) }))) := by
  unfold setCache
  rw [hall]

/-- Whatever `getCached` successfully returns carries the served-from-cache
mark. -/
theorem getCached_marks_cached (sto : Storage) (u : URLParts) (now : Int)
    (c : JsObj) (h : getCached sto u now = Except.ok (some c)) :
    c.cached = true := by
  match hall : getAllCache sto with
  | Except.error e =>
    cases e
    rw [getCached_of_error sto u now hall] at h
    cases h
  | Except.ok ratings =>
    rw [getCached_of_ok sto u now ratings hall] at h
    match hl : lookupEntry ratings (getURL u) with
    | none => simp [hl] at h
    | some entry =>
      simp only [hl] at h
      by_cases hexp : jsLt entry.expires now = true
      · rw [if_pos hexp] at h; simp at h
      · rw [if_neg hexp] at h
        simp only [Except.ok.injEq, Option.some.injEq] at h
        rw [← h]

/-- How `getRating` evaluates on a cache hit. -/
theorem getRating_of_hit (sto : Storage) (u : URLParts) (now : Int)
    (remote : Except Unit JsObj) (c : JsObj)
    (hc : getCached sto u now = Except.ok (some c)) :
    getRating sto u now remote = Except.ok (c, 0, sto) := by
  unfold getRating
  rw [hc]

/-- C1: the claim says likes and dislikes stay nonnegative under every
Created/Switched/Rejected/Failure outcome, with a Switched decrement
clamped at 0.  The code has no clamp: from the tally (0, 0), a `like`
whose response is `updated` (Switched) drives `dislikes` to `-1`, which
this run exhibits. -/
theorem C1_switched_drives_dislikes_negative :
    like { likes := some 0, dislikes := some 0 } none exampleURL 0
        (Except.ok { status := some ("updated") }) =
      Except.ok (({ likes := some 1, dislikes := some (-1) } : Session),
        some (StoredValue.table
          [ ("example.com/page",
             { likes := some 1, dislikes := some (-1), expires := some 3600000 }) ])) ∧
    ¬ (0 : Int) ≤ -1 := by
  exact ⟨rfl, by decide⟩

/-- C2: the claim says an error-flagged response leaves the tally unchanged
and writes no cache.  `like` indeed bails before any write, but `dislike`
has no `response.error` bail: on an error-flagged response it leaves the
tally at (5, 4) yet still runs `update(true)`, writing the tally into the
previously empty storage. -/
theorem C2_dislike_error_response_writes_cache :
    dislike { likes := some 5, dislikes := some 4 } none exampleURL 0
        (Except.ok { error := true }) =
      Except.ok (({ likes := some 5, dislikes := some 4 } : Session),
        some (StoredValue.table
          [ ("example.com/page",
             { likes := some 5, dislikes := some 4, expires := some 3600000 }) ])) ∧
    like { likes := some 5, dislikes := some 4 } none exampleURL 0
        (Except.ok { error := true }) =
      Except.ok (({ likes := some 5, dislikes := some 4 } : Session), none) := by
  exact ⟨rfl, rfl⟩

/-- C3: the claim says `getAllCache` never raises and degrades malformed
storage to the empty table.  The code's `JSON.parse(rating) || \x7b\x7d`
only guards a falsy parse result; on an unparsable string `JSON.parse`
throws and nothing catches it, so `getAllCache` raises.  The `null` read
and the falsy-parse read do degrade to the empty table. -/
theorem C3_malformed_storage_raises :
    getAllCache (some StoredValue.malformed) = Except.error () ∧
    getAllCache none = Except.ok [] ∧
    getAllCache (some StoredValue.falsyJson) = Except.ok [] := by
  exact ⟨rfl, rfl, rfl⟩

/-- C4: the claim says the displayed ratio `value/max` equals
`likes/total`.  The code computes `value = Math.floor(likes/total)`, which
collapses every proper fraction to 0: at likes 5, dislikes 3 it renders
value 0, max 8, whose ratio 0 differs from 5/8.  The zero-votes placeholder
(1, 2) does hold and no division by zero occurs. -/
theorem C4_floor_collapses_ratio :
    progressValues 5 3 = (0, 8) ∧
    (((progressValues 5 3).1 : ℚ) / ((progressValues 5 3).2 : ℚ) ≠ (5 : ℚ) / (5 + 3)) ∧
    progressValues 0 0 = (1, 2) := by
  have h : progressValues 5 3 = (0, 8) := rfl
  refine ⟨h, ?_, rfl⟩
  rw [h]
  norm_num

/-- C5 counterexample: the claim says an entry is absent whenever
`expiresAt ≤ now`, including the boundary `now = expiresAt`.  With an
entry whose `expires` is 100, a read at `now = 100` still serves the entry
(the code's test is the strict `expires < now`), so the result is not
absent. -/
theorem C5_boundary_counterexample :
    getCached (some (StoredValue.table
        [ ("example.com/page",
           { likes := some 1, dislikes := some 2, expires := some 100 }) ]))
      exampleURL 100 ≠ Except.ok none := by
  decide

/-- C5 amended: `getCached` treats an entry as absent exactly when
`expires < now` (strict); at the boundary `now = expiresAt` the entry is
still served, spread with the cached mark; the function performs no
storage write (it is a pure read of the table). -/
theorem C5_strict_expiry (sto : Storage) (t : CacheTable) (u : URLParts)
    (now e : Int) (entry : JsObj)
    (hall : getAllCache sto = Except.ok t)
    (hl : lookupEntry t (getURL u) = some entry)
    (he : entry.expires = some e) :
    (e < now → getCached sto u now = Except.ok none) ∧
    (now ≤ e → getCached sto u now =
       Except.ok (some { entry with cached := true, url := some (getURL u) })) := by
  constructor
  · intro hlt
    rw [getCached_of_ok sto u now t hall]
    simp only [hl, he]
    simp [jsLt, hlt]
  · intro hle
    rw [getCached_of_ok sto u now t hall]
    simp only [hl]
    have hfalse : jsLt entry.expires now = false := by
      rw [he]
      simp only [jsLt, decide_eq_false_iff_not]
      omega
    simp [hfalse]

/-- C5 witness: the amended theorem at a concrete expired read — entry
expiring at 100, read at 101, absent. -/
theorem C5_strict_expiry_witness :
    getCached (some (StoredValue.table
        [ ("example.com/page",
           { likes := some 1, dislikes := some 2, expires := some 100 }) ]))
      exampleURL 101 = Except.ok none := by
  exact (C5_strict_expiry
    (some (StoredValue.table
      [ ("example.com/page",
         { likes := some 1, dislikes := some 2, expires := some 100 }) ]))
    [ ("example.com/page",
       { likes := some 1, dislikes := some 2, expires := some 100 }) ]
    exampleURL 101 100
    { likes := some 1, dislikes := some 2, expires := some 100 }
    rfl (by decide) rfl).1 (by decide)

/-- C6 counterexample: the claim says the normalization transform is
idempotent on every input.  The transform removes only one trailing slash,
so on the page URL with host `example.com` and path `/a//` the first pass
yields a string still ending in a slash, and a second pass shortens it
again. -/
theorem C6_idempotence_counterexample :
    normalizeString (getURL
      { scheme := "http", host := "example.com", path := "/a//",
        query := "", fragment := "" }) ≠
    getURL
      { scheme := "http", host := "example.com", path := "/a//",
        query := "", fragment := "" } := by
  decide

/-- C6 amended: normalization keeps host + path (it is independent of
scheme, query and fragment), satisfies the spec's concrete example
equality, and is idempotent on every input whose normalized form no longer
contains the `www.` pattern and no longer ends in a slash — the code
removes only the first `www.` occurrence (anywhere, not only leading) and
only one trailing slash, so a second pass can strip again outside that
set. -/
theorem C6_normalization_amended (u : URLParts) (sch q f : String) (s : String)
    (h1 : hasOccurrence wwwPat (normalizeString s).data = false)
    (h2 : endsSlash (normalizeString s).data = false) :
    getURL { scheme := sch, host := u.host, path := u.path,
             query := q, fragment := f } = getURL u ∧
    getURL { scheme := "https", host := "www.example.com", path := "/path/",
             query := "", fragment := "" } =
      getURL { scheme := "http", host := "example.com", path := "/path",
               query := "", fragment := "" } ∧
    normalizeString (normalizeString s) = normalizeString s := by
  refine ⟨rfl, by decide, ?_⟩
  have hd : dropTrailingSlash (normalizeString s).data = (normalizeString s).data :=
    dropTrailingSlash_of_not_endsSlash _ h2
  have hr : removeFirst wwwPat (normalizeString s).data = (normalizeString s).data :=
    removeFirst_of_no_occurrence _ _ h1
  show String.mk (removeFirst wwwPat (dropTrailingSlash (normalizeString s).data)) =
    normalizeString s
  rw [hd, hr]

/-- C6 witness: the amended theorem at the spec's own example URL, whose
normalized form has no remaining `www.` and no trailing slash. -/
theorem C6_normalization_amended_witness :
    normalizeString (normalizeString ("www.example.com/path/")) =
      normalizeString ("www.example.com/path/") := by
  exact (C6_normalization_amended exampleURL "http" "" "" ("www.example.com/path/")
    (by decide) (by decide)).2.2

/-- C7: cache round-trip.  From any readable storage, `setCache` stores
the rating under the normalized URL with the constant one-hour expiry
`now + 1000*60*60` (the TTL is the same literal for every write); an
immediate `getCached` returns the stored rating — its tally fields
verbatim, differing only in `expires`, the cached mark and the `url`
field — and once simulated time passes the write time plus the TTL the
read is absent. -/
theorem C7_cache_roundtrip (sto : Storage) (t : CacheTable) (u : URLParts)
    (now now2 : Int) (rating : JsObj)
    (hall : getAllCache sto = Except.ok t)
    (hlate : now + 1000 * 60 * 60 < now2) :
    setCache sto u now rating =
      Except.ok (some (StoredValue.table
        (setEntry t (getURL u)
          { rating with expires := some (now + 1000 * 60 * 60) }))) ∧
    getCached (some (StoredValue.table
        (setEntry t (getURL u)
          { rating with expires := some (now + 1000 * 60 * 60) }))) u now =
      Except.ok (some { rating with
        expires := some (now + 1000 * 60 * 60),
        cached := true,
        url := some (getURL u) }) ∧
    getCached (some (StoredValue.table
        (setEntry t (getURL u)
          { rating with expires := some (now + 1000 * 60 * 60) }))) u now2 =
      Except.ok none := by
  refine ⟨setCache_of_ok sto u now rating t hall, ?_, ?_⟩
  · rw [getCached_of_ok (some (StoredValue.table (setEntry t (getURL u)
        { rating with expires := some (now + 1000 * 60 * 60) }))) u now
      (setEntry t (getURL u) { rating with expires := some (now + 1000 * 60 * 60) }) rfl]
    simp only [lookup_setEntry]
    have hfresh : ¬ (jsLt (some (now + 1000 * 60 * 60)) now = true) := by
      simp only [jsLt, decide_eq_true_eq]
      omega
    rw [if_neg hfresh]
  · rw [getCached_of_ok (some (StoredValue.table (setEntry t (getURL u)
        { rating with expires := some (now + 1000 * 60 * 60) }))) u now2
      (setEntry t (getURL u) { rating with expires := some (now + 1000 * 60 * 60) }) rfl]
    simp only [lookup_setEntry]
    have hstale : jsLt (some (now + 1000 * 60 * 60)) now2 = true := by
      simp only [jsLt, decide_eq_true_eq]
      omega
    rw [if_pos hstale]

/-- C7 witness: the round trip at empty storage, tally (5, 4), write at
time 0, re-read at 0 (hit, tally verbatim) and at 3600001 (absent). -/
theorem C7_cache_roundtrip_witness :
    setCache none exampleURL 0 { likes := some 5, dislikes := some 4 } =
      Except.ok (some (StoredValue.table
        [ ("example.com/page",
           { likes := some 5, dislikes := some 4, expires := some 3600000 }) ])) ∧
    getCached (some (StoredValue.table
        [ ("example.com/page",
           { likes := some 5, dislikes := some 4, expires := some 3600000 }) ]))
      exampleURL 0 =
      Except.ok (some { likes := some 5, dislikes := some 4, expires := some 3600000,
                        cached := true, url := some ("example.com/page") }) ∧
    getCached (some (StoredValue.table
        [ ("example.com/page",
           { likes := some 5, dislikes := some 4, expires := some 3600000 }) ]))
      exampleURL 3600001 =
      Except.ok none := by
  exact C7_cache_roundtrip none [] exampleURL 0 3600001
    { likes := some 5, dislikes := some 4 } rfl (by decide)

/-- C8: on a hit — an unexpired entry for the active normalized URL —
`getRating` returns the entry marked served-from-cache, performs zero
remote reads and leaves storage untouched, whatever the remote outcome
would have been; on a miss it performs exactly one remote read and exactly
one cache write, storing the fetched object under the normalized URL with
the fresh one-hour expiry. -/
theorem C8_hit_and_miss (sto : Storage) (u : URLParts) (now : Int) :
    (∀ (c : JsObj) (remote : Except Unit JsObj),
        getCached sto u now = Except.ok (some c) →
        getRating sto u now remote = Except.ok (c, 0, sto) ∧ c.cached = true) ∧
    (∀ (t : CacheTable) (resp : JsObj),
        getCached sto u now = Except.ok none →
        getAllCache sto = Except.ok t →
        getRating sto u now (Except.ok resp) =
          Except.ok (resp, 1,
            some (StoredValue.table
              (setEntry t (getURL u)
                { resp with expires := some (now + 1000 * 60 * 60) })))) := by
  constructor
  · intro c remote hc
    exact ⟨getRating_of_hit sto u now remote c hc,
      getCached_marks_cached sto u now c hc⟩
  · intro t resp hmiss hall
    unfold getRating
    rw [hmiss]
    show (match setCache sto u now resp with
      | Except.error e => Except.error e
      | Except.ok sto2 => Except.ok (resp, 1, sto2)) = _
    rw [setCache_of_ok sto u now resp t hall]

/-- C8 witness: a hit at a live entry returns it with zero requests even
when the remote would fail; a miss at empty storage performs the one read
and one write. -/
theorem C8_hit_and_miss_witness :
    getRating (some (StoredValue.table
        [ ("example.com/page",
           { likes := some 7, dislikes := some 2, expires := some 50 }) ]))
      exampleURL 10 (Except.error ()) =
      Except.ok (({ likes := some 7, dislikes := some 2, expires := some 50,
                    cached := true, url := some ("example.com/page") } : JsObj), 0,
        some (StoredValue.table
          [ ("example.com/page",
             { likes := some 7, dislikes := some 2, expires := some 50 }) ])) ∧
    getRating none exampleURL 10 (Except.ok { likes := some 3, dislikes := some 1 }) =
      Except.ok (({ likes := some 3, dislikes := some 1 } : JsObj), 1,
        some (StoredValue.table
          [ ("example.com/page",
             { likes := some 3, dislikes := some 1, expires := some 3600010 }) ])) := by
  constructor
  · exact ((C8_hit_and_miss (some (StoredValue.table
      [ ("example.com/page",
         { likes := some 7, dislikes := some 2, expires := some 50 }) ]))
      exampleURL 10).1
      { likes := some 7, dislikes := some 2, expires := some 50,
        cached := true, url := some ("example.com/page") }
      (Except.error ()) (by decide)).1
  · exact (C8_hit_and_miss none exampleURL 10).2 []
      { likes := some 3, dislikes := some 1 } (by decide) rfl

/-- C9: a successful `load` on a cache hit adopts the entry's tally and,
because `update` receives the truthy rating object as its `updateCache`
flag, writes that tally straight back under the normalized URL with a
fresh one-hour expiry — sliding expiration — without consulting the
remote (the `remote` outcome is arbitrary and unused). -/
theorem C9_load_hit_refreshes_ttl (sto : Storage) (t : CacheTable) (u : URLParts)
    (now : Int) (entry : JsObj) (remote : Except Unit JsObj)
    (hall : getAllCache sto = Except.ok t)
    (hl : lookupEntry t (getURL u) = some entry)
    (hlive : jsLt entry.expires now = false) :
    load sto u now remote =
      Except.ok (({ likes := entry.likes, dislikes := entry.dislikes } : Session),
        some (StoredValue.table
          (setEntry t (getURL u)
            { likes := entry.likes, dislikes := entry.dislikes,
              expires := some (now + 1000 * 60 * 60) }))) := by
  have hc : getCached sto u now =
      Except.ok (some { entry with cached := true, url := some (getURL u) }) := by
    rw [getCached_of_ok sto u now t hall]
    simp [hl, hlive]
  unfold load
  rw [getRating_of_hit sto u now remote _ hc]
  show (match setCache sto u now { likes := entry.likes, dislikes := entry.dislikes } with
    | Except.error e => Except.error e
    | Except.ok sto2 =>
      Except.ok (({ likes := entry.likes, dislikes := entry.dislikes } : Session), sto2)) = _
  rw [setCache_of_ok sto u now { likes := entry.likes, dislikes := entry.dislikes } t hall]

/-- C9 witness: loading over a live entry (7, 2) expiring at 50, at time
10, returns the cached tally and rewrites the entry to expire at 3600010,
with the remote round trip failing (hence unused). -/
theorem C9_load_hit_refreshes_ttl_witness :
    load (some (StoredValue.table
        [ ("example.com/page",
           { likes := some 7, dislikes := some 2, expires := some 50 }) ]))
      exampleURL 10 (Except.error ()) =
      Except.ok (({ likes := some 7, dislikes := some 2 } : Session),
        some (StoredValue.table
          [ ("example.com/page",
             { likes := some 7, dislikes := some 2, expires := some 3600010 }) ])) := by
  exact C9_load_hit_refreshes_ttl
    (some (StoredValue.table
      [ ("example.com/page",
         { likes := some 7, dislikes := some 2, expires := some 50 }) ]))
    [ ("example.com/page",
       { likes := some 7, dislikes := some 2, expires := some 50 }) ]
    exampleURL 10
    { likes := some 7, dislikes := some 2, expires := some 50 }
    (Except.error ()) rfl (by decide) (by decide)

/-- C10: on a cache miss `getRating` adopts and caches the remote response
verbatim and unvalidated — any response object, including one without
likes/dislikes fields, is stored under the normalized URL with the fresh
expiry and returned as the rating — while a thrown transport/parse
failure propagates as the error outcome, whose result carries no storage
(so it occurs before any cache write). -/
theorem C10_miss_caches_verbatim (sto : Storage) (t : CacheTable) (u : URLParts)
    (now : Int)
    (hmiss : getCached sto u now = Except.ok none)
    (hall : getAllCache sto = Except.ok t) :
    getRating sto u now (Except.error ()) = Except.error () ∧
    (∀ resp : JsObj, getRating sto u now (Except.ok resp) =
        Except.ok (resp, 1,
          some (StoredValue.table
            (setEntry t (getURL u)
              { resp with expires := some (now + 1000 * 60 * 60) })))) := by
  constructor
  · unfold getRating
    rw [hmiss]
  · intro resp
    unfold getRating
    rw [hmiss]
    show (match setCache sto u now resp with
      | Except.error e => Except.error e
      | Except.ok sto2 => Except.ok (resp, 1, sto2)) = _
    rw [setCache_of_ok sto u now resp t hall]

/-- C10 witness: at empty storage, a thrown round trip propagates with no
write, and an error payload without likes/dislikes is cached and returned
verbatim. -/
theorem C10_miss_caches_verbatim_witness :
    getRating none exampleURL 0 (Except.error ()) = Except.error () ∧
    getRating none exampleURL 0
        (Except.ok { error := true, status := some ("error") }) =
      Except.ok (({ error := true, status := some ("error") } : JsObj), 1,
        some (StoredValue.table
          [ ("example.com/page",
             { error := true, status := some ("error"), expires := some 3600000 }) ])) := by
  have h := C10_miss_caches_verbatim none [] exampleURL 0 (by decide) rfl
  exact ⟨h.1, h.2 { error := true, status := some ("error") }⟩

end RatingBar
